import Mathlib

/-!
Verification of the tracked-delivery subsystem of the telegraf metric
pipeline (package `metric`, file containing `newTrackingMetric`,
`newTrackingMetricGroup`, `trackingMetric.Accept` / `Reject` / `Drop` /
`Copy` / `decr`, `trackingData`, `deliveryInfo`, `newTrackingID`).

The embedding is a sequential shallow embedding of the Go source:

* `trackingData` mirrors the Go struct of the same name: the shared
  record holding the tracking id, the reference count `Rc`, and the
  `AcceptCount` / `RejectCount` counters.  Go `int32` counters are
  modelled as `Int` (the claims never approach the `int32` range, and
  `Rc` must be able to hold the negative value produced by a decrement
  past zero before the fatal check fires).
* The producer-supplied `notifyFunc` callback is modelled by a log: the
  state records the list of `DeliveryInfo` values the callback has been
  invoked with, in order.  A callback that itself panics is modelled by
  the boolean parameter `notifyPanics` threaded into `trackingMetric.decr`.
* A Go `panic` is modelled by the `panicked` flag of the state: once set,
  execution of the surrounding scenario ends (no theorem applies a
  further operation to a panicked state).
* The tracking registry `trackingStore` is modelled, for the single
  record a scenario creates, by the boolean `store`: whether the entry
  for this record's id is present in the registry.  The source under
  consideration contains the removal (`delete(trackingStore, m.d.Id)`
  inside `trackingMetric.decr`) but not the registration; registration
  is modelled from the spec, see `registryRegistered` below.
* Sharing of the record by every tracked-metric instance of one logical
  unit (Go: a shared pointer `m.d`) is modelled by keeping the one
  record in the scenario state; an instance carries the id of the
  record it references (`dId`), which is how the Go `TrackingID()`
  accessor reads it.
-/

/-- DeliveryInfo as in the source: id plus the final accepted/rejected
counters, as handed to the notify callback. -/
structure DeliveryInfo where
  id : Nat
  accepted : Int
  rejected : Int
deriving DecidableEq, Repr

/-- Source `deliveryInfo.Delivered`: true iff the rejected counter is 0. -/
def DeliveryInfo.Delivered (r : DeliveryInfo) : Bool :=
  r.rejected == 0

/-- Source `deliveryInfo.ID`. -/
def DeliveryInfo.ID (r : DeliveryInfo) : Nat :=
  r.id

/-- Source struct `trackingData`: the shared record of one logical
delivery unit. -/
structure TrackingData where
  Id : Nat
  Rc : Int
  AcceptCount : Int
  RejectCount : Int
deriving DecidableEq, Repr

/-- Source `trackingData.incr`. -/
def TrackingData.incr (d : TrackingData) : TrackingData :=
  { d with Rc := d.Rc + 1 }

/-- Source `trackingData.decr`: decrement and return the new value
(Go: `atomic.AddInt32(&d.Rc, -1)` returns the updated value). -/
def TrackingData.decr (d : TrackingData) : TrackingData × Int :=
  ({ d with Rc := d.Rc - 1 }, d.Rc - 1)

/-- Source `trackingData.accept`. -/
def TrackingData.accept (d : TrackingData) : TrackingData :=
  { d with AcceptCount := d.AcceptCount + 1 }

/-- Source `trackingData.reject`. -/
def TrackingData.reject (d : TrackingData) : TrackingData :=
  { d with RejectCount := d.RejectCount + 1 }

/-- Source `trackingData.notify`: the DeliveryInfo value passed to the
producer callback. -/
def TrackingData.notifyInfo (d : TrackingData) : DeliveryInfo :=
  { id := d.Id, accepted := d.AcceptCount, rejected := d.RejectCount }

/-- Source `trackingData.RefCount`. -/
def TrackingData.RefCount (d : TrackingData) : Int :=
  d.Rc

/-- Source `trackingData.ID`. -/
def TrackingData.ID (d : TrackingData) : Nat :=
  d.Id

/-- Scenario state: the one shared record created by the scenario, the
log of notify-callback invocations (oldest first), whether the registry
still holds the entry for the record's id, and whether a Go panic has
been raised. -/
structure TSState where
  d : TrackingData
  notifications : List DeliveryInfo
  store : Bool
  panicked : Bool
deriving DecidableEq, Repr

/-- Modelled from the spec: the registration side of the tracking
registry (`register(id, record)` of spec section 4.4) is not in the
provided source files; only the removal inside `trackingMetric.decr`
is.  Per the spec the registry maps every in-flight unit, so a record
is registered at creation: the entry is present from the start. -/
def registryRegistered : Bool := true

/-- A tracked metric instance (source struct `trackingMetric`): the
underlying metric value plus the reference to the shared record,
modelled by the record's id. -/
structure TrackedM (M : Type) where
  Metric : M
  dId : Nat
deriving DecidableEq, Repr

namespace TrackedM

/-- Source `trackingMetric.decr`: decrement the shared refcount; panic
on a negative result; on the zero crossing invoke the notify callback
and then delete the registry entry.  `notifyPanics` models a producer
callback that itself panics: the callback is still invoked (logged),
the panic propagates, and the statements after the callback do not
run. -/
def decr (notifyPanics : Bool) (s : TSState) : TSState :=
  let p := s.d.decr
  let d := p.1
  let v := p.2
  if v < 0 then
    { s with d := d, panicked := true }
  else if v = 0 then
    let s1 := { s with d := d, notifications := s.notifications ++ [d.notifyInfo] }
    if notifyPanics then
      { s1 with panicked := true }
    else
      { s1 with store := false }
  else
    { s with d := d }

/-- Source `trackingMetric.Accept`: record an accept, then decrement. -/
def Accept (notifyPanics : Bool) (s : TSState) : TSState :=
  decr notifyPanics { s with d := s.d.accept }

/-- Source `trackingMetric.Reject`: record a reject, then decrement. -/
def Reject (notifyPanics : Bool) (s : TSState) : TSState :=
  decr notifyPanics { s with d := s.d.reject }

/-- Source `trackingMetric.Drop`: decrement without touching either
counter. -/
def Drop (notifyPanics : Bool) (s : TSState) : TSState :=
  decr notifyPanics s

/-- Source `trackingMetric.Copy`: increment the shared refcount and
return a new instance wrapping a copy of the underlying metric value
(the `Metric.Copy()` of the wrapped interface value, a parameter here)
and referencing the same record. -/
def Copy {M : Type} (mcopy : M → M) (m : TrackedM M) (s : TSState) :
    TrackedM M × TSState :=
  ({ Metric := mcopy m.Metric, dId := m.dId }, { s with d := s.d.incr })

/-- Source `trackingMetric.TrackingID`. -/
def TrackingID {M : Type} (m : TrackedM M) : Nat :=
  m.dId

/-- Source `trackingMetric.Unwrap`. -/
def Unwrap {M : Type} (m : TrackedM M) : M :=
  m.Metric

end TrackedM

/-- Source `newTrackingMetric`: wrap a single metric; the record starts
with refcount 1 and zero counters.  The fresh tracking id is a
parameter (the allocator is modelled separately, see `newTrackingID`). -/
def newTrackingMetric {M : Type} (id : Nat) (m : M) : TrackedM M × TSState :=
  ({ Metric := m, dId := id },
   { d := { Id := id, Rc := 1, AcceptCount := 0, RejectCount := 0 },
     notifications := [],
     store := registryRegistered,
     panicked := false })

/-- The loop body of source `newTrackingMetricGroup`: for each metric of
the group, increment the shared record's refcount and replace the slice
element by its tracked wrapper. -/
def wrapGroup {M : Type} (d : TrackingData) :
    List M → List (TrackedM M) × TrackingData
  | [] => ([], d)
  | m :: rest =>
      let d1 := d.incr
      let p := wrapGroup d1 rest
      ({ Metric := m, dId := d.Id } :: p.1, p.2)

/-- Source `newTrackingMetricGroup`: create one shared record with
refcount 0, wrap every metric of the group (incrementing the refcount
each time), and, when the group is empty, invoke the notify callback
immediately.  Note the empty-group notify does not touch the registry
entry. -/
def newTrackingMetricGroup {M : Type} (id : Nat) (group : List M) :
    List (TrackedM M) × TSState :=
  let d0 : TrackingData := { Id := id, Rc := 0, AcceptCount := 0, RejectCount := 0 }
  let p := wrapGroup d0 group
  let s0 : TSState :=
    { d := p.2, notifications := [], store := registryRegistered, panicked := false }
  if group.length = 0 then
    (p.1, { s0 with notifications := s0.notifications ++ [p.2.notifyInfo] })
  else
    (p.1, s0)

/-- Source `WithTracking`. -/
def WithTracking {M : Type} (id : Nat) (m : M) : TrackedM M × TSState :=
  newTrackingMetric id m

/-- Source `WithGroupTracking`. -/
def WithGroupTracking {M : Type} (id : Nat) (group : List M) :
    List (TrackedM M) × TSState :=
  newTrackingMetricGroup id group

/-- One resolve call on a live instance: exactly one of accept, reject
or drop. -/
inductive Resolution where
  | accept : Resolution
  | reject : Resolution
  | drop : Resolution
deriving DecidableEq, Repr

/-- Apply one resolve call (with a callback that returns normally). -/
def applyResolution (s : TSState) (r : Resolution) : TSState :=
  match r with
  | Resolution.accept => TrackedM.Accept false s
  | Resolution.reject => TrackedM.Reject false s
  | Resolution.drop => TrackedM.Drop false s

/-- Run a sequence of resolve calls. -/
def runResolutions (rs : List Resolution) (s : TSState) : TSState :=
  rs.foldl applyResolution s

/-- Number of accept calls in a resolution sequence. -/
def countAccepts : List Resolution → Nat
  | [] => 0
  | Resolution.accept :: rest => countAccepts rest + 1
  | _ :: rest => countAccepts rest

/-- Number of reject calls in a resolution sequence. -/
def countRejects : List Resolution → Nat
  | [] => 0
  | Resolution.reject :: rest => countRejects rest + 1
  | _ :: rest => countRejects rest

/-- Number of drop calls in a resolution sequence. -/
def countDrops : List Resolution → Nat
  | [] => 0
  | Resolution.drop :: rest => countDrops rest + 1
  | _ :: rest => countDrops rest

/-- The identifier allocator (source `newTrackingID`): a wrapping
increment of the process-global `uint64` counter `lastID`, returning
the updated value.  Result: (new counter state, issued id). -/
def newTrackingID (lastID : Nat) : Nat × Nat :=
  (((lastID + 1) % 2 ^ 64), ((lastID + 1) % 2 ^ 64))

/-- The allocator counter after k calls, starting from the zero-value
initialisation of the Go package-level variable `lastID`. -/
def lastIDAfter : Nat → Nat
  | 0 => 0
  | k + 1 => (newTrackingID (lastIDAfter k)).1

/-- The id issued by the j-th call of `newTrackingID` (j counted from 1). -/
def issuedID (j : Nat) : Nat :=
  (newTrackingID (lastIDAfter (j - 1))).2

/-- Contribution of one resolve call to the accepted counter. -/
def accBump : Resolution → Int
  | Resolution.accept => 1
  | _ => 0

/-- Contribution of one resolve call to the rejected counter. -/
def rejBump : Resolution → Int
  | Resolution.reject => 1
  | _ => 0

lemma countAccepts_cons (r : Resolution) (rs : List Resolution) :
    (countAccepts (r :: rs) : Int) = accBump r + (countAccepts rs : Int) := by
  cases r <;> simp [countAccepts, accBump]
  omega

lemma countRejects_cons (r : Resolution) (rs : List Resolution) :
    (countRejects (r :: rs) : Int) = rejBump r + (countRejects rs : Int) := by
  cases r <;> simp [countRejects, rejBump]
  omega

lemma applyResolution_last (r : Resolution) (s : TSState) (h1 : s.d.Rc = 1)
    (hp : s.panicked = false) :
    applyResolution s r =
      { d := { Id := s.d.Id, Rc := 0,
               AcceptCount := s.d.AcceptCount + accBump r,
               RejectCount := s.d.RejectCount + rejBump r },
        notifications := s.notifications ++
          [{ id := s.d.Id,
             accepted := s.d.AcceptCount + accBump r,
             rejected := s.d.RejectCount + rejBump r }],
        store := false,
        panicked := false } := by
  cases r <;>
    simp [applyResolution, TrackedM.Accept, TrackedM.Reject, TrackedM.Drop,
      TrackedM.decr, TrackingData.accept, TrackingData.reject,
      TrackingData.decr, TrackingData.notifyInfo, accBump, rejBump, h1, hp]

lemma applyResolution_mid (r : Resolution) (s : TSState) (h1 : 1 < s.d.Rc) :
    (applyResolution s r).d.Id = s.d.Id ∧
    (applyResolution s r).d.Rc = s.d.Rc - 1 ∧
    (applyResolution s r).d.AcceptCount = s.d.AcceptCount + accBump r ∧
    (applyResolution s r).d.RejectCount = s.d.RejectCount + rejBump r ∧
    (applyResolution s r).notifications = s.notifications ∧
    (applyResolution s r).store = s.store ∧
    (applyResolution s r).panicked = s.panicked := by
  have hv0 : ¬ (s.d.Rc - 1 < 0) := by omega
  have hv1 : ¬ (s.d.Rc - 1 = 0) := by omega
  cases r <;>
    simp [applyResolution, TrackedM.Accept, TrackedM.Reject, TrackedM.Drop,
      TrackedM.decr, TrackingData.accept, TrackingData.reject,
      TrackingData.decr, TrackingData.notifyInfo, accBump, rejBump, hv0, hv1]

lemma runResolutions_nil (s : TSState) : runResolutions [] s = s := rfl

lemma runResolutions_cons (r : Resolution) (rs : List Resolution) (s : TSState) :
    runResolutions (r :: rs) s = runResolutions rs (applyResolution s r) := rfl

/-- Running exactly as many resolve calls as the refcount holds drives
the refcount to 0, fires the notify callback exactly once with the
accumulated counters, removes the registry entry and raises no panic. -/
theorem runResolutions_complete (rs : List Resolution) :
    ∀ s : TSState, s.d.Rc = (rs.length : Int) → s.panicked = false → rs ≠ [] →
      (runResolutions rs s).d.Id = s.d.Id ∧
      (runResolutions rs s).d.Rc = 0 ∧
      (runResolutions rs s).d.AcceptCount = s.d.AcceptCount + (countAccepts rs : Int) ∧
      (runResolutions rs s).d.RejectCount = s.d.RejectCount + (countRejects rs : Int) ∧
      (runResolutions rs s).notifications = s.notifications ++
        [{ id := s.d.Id,
           accepted := s.d.AcceptCount + (countAccepts rs : Int),
           rejected := s.d.RejectCount + (countRejects rs : Int) }] ∧
      (runResolutions rs s).store = false ∧
      (runResolutions rs s).panicked = false := by
  induction rs with
  | nil => intro s _ _ hne; exact absurd rfl hne
  | cons r rest ih =>
    intro s h hp _
    by_cases hrest : rest = []
    · subst hrest
      have h1 : s.d.Rc = 1 := by simpa using h
      rw [runResolutions_cons, applyResolution_last r s h1 hp, runResolutions_nil]
      refine ⟨rfl, rfl, ?_, ?_, ?_, rfl, rfl⟩ <;>
        simp [countAccepts_cons, countRejects_cons, countAccepts, countRejects]
    · have hlen : 1 ≤ rest.length := by
        cases rest with
        | nil => exact absurd rfl hrest
        | cons a l => simp
      have h1 : 1 < s.d.Rc := by
        rw [h]; simp only [List.length_cons]; push_cast; omega
      obtain ⟨m1, m2, m3, m4, m5, m6, m7⟩ := applyResolution_mid r s h1
      rw [runResolutions_cons]
      obtain ⟨e1, e2, e3, e4, e5, e6, e7⟩ :=
        ih (applyResolution s r)
          (by rw [m2, h]; simp only [List.length_cons]; push_cast; ring)
          (by rw [m7, hp]) hrest
      refine ⟨by rw [e1, m1], e2, ?_, ?_, ?_, e6, e7⟩
      · rw [e3, m3, countAccepts_cons]; ring
      · rw [e4, m4, countRejects_cons]; ring
      · rw [e5, m5, m1, m3, m4, countAccepts_cons, countRejects_cons]
        have ha : s.d.AcceptCount + accBump r + (countAccepts rest : Int)
            = s.d.AcceptCount + (accBump r + (countAccepts rest : Int)) := by ring
        have hb : s.d.RejectCount + rejBump r + (countRejects rest : Int)
            = s.d.RejectCount + (rejBump r + (countRejects rest : Int)) := by ring
        rw [ha, hb]

/-- Running strictly fewer resolve calls than the refcount holds leaves
the notification log, the registry entry and the panic flag untouched
and decrements the refcount by the number of calls. -/
theorem runResolutions_partial (rs : List Resolution) :
    ∀ s : TSState, (rs.length : Int) < s.d.Rc → s.panicked = false →
      (runResolutions rs s).d.Id = s.d.Id ∧
      (runResolutions rs s).d.Rc = s.d.Rc - (rs.length : Int) ∧
      (runResolutions rs s).d.AcceptCount = s.d.AcceptCount + (countAccepts rs : Int) ∧
      (runResolutions rs s).d.RejectCount = s.d.RejectCount + (countRejects rs : Int) ∧
      (runResolutions rs s).notifications = s.notifications ∧
      (runResolutions rs s).store = s.store ∧
      (runResolutions rs s).panicked = false := by
  induction rs with
  | nil =>
    intro s _ hp
    rw [runResolutions_nil]
    refine ⟨rfl, by simp, by simp [countAccepts], by simp [countRejects], rfl, rfl, hp⟩
  | cons r rest ih =>
    intro s h hp
    have h1 : 1 < s.d.Rc := by
      simp only [List.length_cons] at h; push_cast at h; omega
    obtain ⟨m1, m2, m3, m4, m5, m6, m7⟩ := applyResolution_mid r s h1
    rw [runResolutions_cons]
    obtain ⟨e1, e2, e3, e4, e5, e6, e7⟩ :=
      ih (applyResolution s r)
        (by rw [m2]; simp only [List.length_cons] at h ⊢; push_cast at h ⊢; omega)
        (by rw [m7, hp])
    refine ⟨by rw [e1, m1], ?_, ?_, ?_, by rw [e5, m5], by rw [e6, m6], e7⟩
    · rw [e2, m2]; simp only [List.length_cons]; push_cast; ring
    · rw [e3, m3, countAccepts_cons]; ring
    · rw [e4, m4, countRejects_cons]; ring

lemma wrapGroup_fst {M : Type} :
    ∀ (group : List M) (d : TrackingData),
      (wrapGroup d group).1 = group.map (fun m => { Metric := m, dId := d.Id }) := by
  intro group
  induction group with
  | nil => intro d; rfl
  | cons m rest ih => intro d; simp [wrapGroup, ih, TrackingData.incr]

lemma wrapGroup_snd {M : Type} :
    ∀ (group : List M) (d : TrackingData),
      (wrapGroup d group).2 = { d with Rc := d.Rc + (group.length : Int) } := by
  intro group
  induction group with
  | nil => intro d; simp [wrapGroup]
  | cons m rest ih =>
    intro d
    simp [wrapGroup, ih, TrackingData.incr, TrackingData.mk.injEq]
    ring

lemma newTrackingMetricGroup_fst {M : Type} (id : Nat) (group : List M) :
    (newTrackingMetricGroup id group).1
      = group.map (fun m => { Metric := m, dId := id }) := by
  by_cases hg : group.length = 0 <;>
    simp [newTrackingMetricGroup, wrapGroup_fst, hg]

lemma newTrackingMetricGroup_snd {M : Type} (id : Nat) (group : List M)
    (hg : group ≠ []) :
    (newTrackingMetricGroup id group).2
      = { d := { Id := id, Rc := (group.length : Int),
                 AcceptCount := 0, RejectCount := 0 },
          notifications := [],
          store := registryRegistered,
          panicked := false } := by
  have hg0 : ¬ group.length = 0 := by simpa using hg
  simp [newTrackingMetricGroup, wrapGroup_snd, hg0, TrackingData.mk.injEq]

lemma newTrackingMetricGroup_nil {M : Type} (id : Nat) :
    (newTrackingMetricGroup id ([] : List M)).2
      = { d := { Id := id, Rc := 0, AcceptCount := 0, RejectCount := 0 },
          notifications := [{ id := id, accepted := 0, rejected := 0 }],
          store := registryRegistered,
          panicked := false } := rfl

lemma counts_total (rs : List Resolution) :
    countAccepts rs + countRejects rs + countDrops rs = rs.length := by
  induction rs with
  | nil => rfl
  | cons r rest ih =>
    cases r <;> simp [countAccepts, countRejects, countDrops, ih] <;> omega

/-- Shared characterisation: a tracked group of N metrics, resolved by
exactly N resolve calls in any mix, notifies exactly once with the
accumulated counters, ends with refcount 0 and no panic, and (for
N greater than 0) with the registry entry removed. -/
lemma group_run {M : Type} (id : Nat) (group : List M) (rs : List Resolution)
    (hlen : rs.length = group.length) :
    (runResolutions rs (newTrackingMetricGroup id group).2).notifications
      = [{ id := id, accepted := (countAccepts rs : Int),
           rejected := (countRejects rs : Int) }] ∧
    (runResolutions rs (newTrackingMetricGroup id group).2).panicked = false ∧
    (runResolutions rs (newTrackingMetricGroup id group).2).d.Rc = 0 ∧
    (runResolutions rs (newTrackingMetricGroup id group).2).store
      = (if group.length = 0 then registryRegistered else false) := by
  by_cases hg : group = []
  · subst hg
    have hrs : rs = [] := List.length_eq_zero.mp (by simpa using hlen)
    subst hrs
    rw [runResolutions_nil, newTrackingMetricGroup_nil]
    simp [countAccepts, countRejects]
  · have hne : rs ≠ [] := by
      intro hrs
      exact hg (List.length_eq_zero.mp (by rw [← hlen, hrs]; rfl))
    rw [newTrackingMetricGroup_snd id group hg]
    obtain ⟨e1, e2, e3, e4, e5, e6, e7⟩ :=
      runResolutions_complete rs
        { d := { Id := id, Rc := (group.length : Int),
                 AcceptCount := 0, RejectCount := 0 },
          notifications := [],
          store := registryRegistered,
          panicked := false }
        (by simp [hlen]) rfl hne
    have hg0 : ¬ group.length = 0 := by simpa using hg
    refine ⟨by simpa using e5, e7, e2, by simp [hg0, e6]⟩

/-- C1: for every N, tracking a group of N metrics (`WithGroupTracking` /
`newTrackingMetricGroup`) and then resolving every live instance exactly
once with any mix of accept / reject / drop invokes the notify callback
exactly once, with the reported accepted count equal to the number of
accept calls, the rejected count equal to the number of reject calls,
accepted + rejected + drops = N, and no panic; the counter carried by
the notification is the fully accumulated one because every counter
update precedes the decrement that can trigger completion. -/
theorem group_tracking_notifies_once {M : Type} (id : Nat) (group : List M)
    (rs : List Resolution) (hlen : rs.length = group.length) :
    (runResolutions rs (newTrackingMetricGroup id group).2).notifications
      = [{ id := id, accepted := (countAccepts rs : Int),
           rejected := (countRejects rs : Int) }] ∧
    (runResolutions rs (newTrackingMetricGroup id group).2).panicked = false ∧
    countAccepts rs + countRejects rs + countDrops rs = group.length := by
  obtain ⟨e1, e2, _, _⟩ := group_run id group rs hlen
  exact ⟨e1, e2, by rw [counts_total, hlen]⟩

/-- C1 witness: a group of three metrics resolved by one accept, one
reject and one drop notifies once with accepted 1 and rejected 1. -/
theorem group_tracking_notifies_once_witness :
    ([Resolution.accept, Resolution.reject, Resolution.drop].length
      = ([10, 20, 30] : List Nat).length) ∧
    (runResolutions [Resolution.accept, Resolution.reject, Resolution.drop]
        (newTrackingMetricGroup 7 ([10, 20, 30] : List Nat)).2).notifications
      = [{ id := 7, accepted := 1, rejected := 1 }] ∧
    countAccepts [Resolution.accept, Resolution.reject, Resolution.drop]
      + countRejects [Resolution.accept, Resolution.reject, Resolution.drop]
      + countDrops [Resolution.accept, Resolution.reject, Resolution.drop] = 3 := by
  have h := group_tracking_notifies_once 7 ([10, 20, 30] : List Nat)
    [Resolution.accept, Resolution.reject, Resolution.drop] rfl
  exact ⟨rfl, h.1, h.2.2⟩

/-- C2: a resolve call on an instance whose shared refcount it would
drive below zero panics (and adds no notification), while under the
correct call discipline of exactly one resolve per live instance the
panic branch is never reached. -/
theorem decrement_past_zero_panics (r : Resolution) (s : TSState)
    (h : s.d.Rc ≤ 0) :
    (applyResolution s r).panicked = true ∧
    (applyResolution s r).notifications = s.notifications ∧
    (∀ (M : Type) (id : Nat) (group : List M) (rs : List Resolution),
      rs.length = group.length →
      (runResolutions rs (newTrackingMetricGroup id group).2).panicked = false) := by
  refine ⟨?_, ?_, ?_⟩
  · have hv : s.d.Rc - 1 < 0 := by omega
    cases r <;>
      simp [applyResolution, TrackedM.Accept, TrackedM.Reject, TrackedM.Drop,
        TrackedM.decr, TrackingData.accept, TrackingData.reject,
        TrackingData.decr, hv]
  · have hv : s.d.Rc - 1 < 0 := by omega
    cases r <;>
      simp [applyResolution, TrackedM.Accept, TrackedM.Reject, TrackedM.Drop,
        TrackedM.decr, TrackingData.accept, TrackingData.reject,
        TrackingData.decr, hv]
  · intro M id group rs hlen
    exact (group_run id group rs hlen).2.1

/-- C2 witness: a second resolve of an already fully resolved single
metric panics without a further notification. -/
theorem decrement_past_zero_panics_witness :
    ((TrackedM.Accept false (newTrackingMetric 1 (0 : Nat)).2).d.Rc ≤ 0) ∧
    (applyResolution (TrackedM.Accept false (newTrackingMetric 1 (0 : Nat)).2)
        Resolution.drop).panicked = true ∧
    (applyResolution (TrackedM.Accept false (newTrackingMetric 1 (0 : Nat)).2)
        Resolution.drop).notifications
      = (TrackedM.Accept false (newTrackingMetric 1 (0 : Nat)).2).notifications := by
  have h := decrement_past_zero_panics Resolution.drop
    (TrackedM.Accept false (newTrackingMetric 1 (0 : Nat)).2) (by decide)
  exact ⟨by decide, h.1, h.2.1⟩

/-- C4: tracking an empty group invokes the notify callback immediately
(the notification is already in the state `newTrackingMetricGroup`
returns) with accepted 0 and rejected 0, and this delivery info reports
delivered = true. -/
theorem empty_group_notifies_immediately (M : Type) (id : Nat) :
    (newTrackingMetricGroup id ([] : List M)).2.notifications
      = [{ id := id, accepted := 0, rejected := 0 }] ∧
    ({ id := id, accepted := 0, rejected := 0 } : DeliveryInfo).Delivered = true := by
  exact ⟨rfl, rfl⟩

/-- C5: for a single tracked metric, accept notifies once with
delivered = true, accepted 1, rejected 0; reject notifies with
delivered = false, accepted 0, rejected 1; drop notifies with
delivered = true, accepted 0, rejected 0; and in general the delivered
flag of a DeliveryInfo is true exactly when its rejected count is 0,
independent of the accepted count. -/
theorem single_resolve_outcomes (M : Type) (id : Nat) (m : M) :
    (TrackedM.Accept false (newTrackingMetric id m).2).notifications
      = [{ id := id, accepted := 1, rejected := 0 }] ∧
    (TrackedM.Reject false (newTrackingMetric id m).2).notifications
      = [{ id := id, accepted := 0, rejected := 1 }] ∧
    (TrackedM.Drop false (newTrackingMetric id m).2).notifications
      = [{ id := id, accepted := 0, rejected := 0 }] ∧
    ({ id := id, accepted := 1, rejected := 0 } : DeliveryInfo).Delivered = true ∧
    ({ id := id, accepted := 0, rejected := 1 } : DeliveryInfo).Delivered = false ∧
    ({ id := id, accepted := 0, rejected := 0 } : DeliveryInfo).Delivered = true ∧
    (∀ r : DeliveryInfo, r.Delivered = true ↔ r.rejected = 0) := by
  refine ⟨rfl, rfl, rfl, rfl, rfl, rfl, ?_⟩
  intro r
  simp [DeliveryInfo.Delivered]

/-- C6: `Copy` increments the shared record's refcount by one, returns a
new instance wrapping the copy of the underlying metric value that
references the same record (same tracking id), and changes nothing
else: the instance it was called on is untouched (the operation reads
it only), and the record's id, accepted and rejected counters, the
notification log, the registry entry and the panic flag are unchanged;
moreover copying a single tracked metric and resolving original and
copy with one accept and one reject notifies exactly once with
accepted 1, rejected 1, delivered = false. -/
theorem copy_shares_record (M : Type) (mcopy : M → M) (m : TrackedM M)
    (s : TSState) (id : Nat) (mv : M) :
    (TrackedM.Copy mcopy m s).2.d.Rc = s.d.Rc + 1 ∧
    (TrackedM.Copy mcopy m s).2.d.Id = s.d.Id ∧
    (TrackedM.Copy mcopy m s).2.d.AcceptCount = s.d.AcceptCount ∧
    (TrackedM.Copy mcopy m s).2.d.RejectCount = s.d.RejectCount ∧
    (TrackedM.Copy mcopy m s).2.notifications = s.notifications ∧
    (TrackedM.Copy mcopy m s).2.store = s.store ∧
    (TrackedM.Copy mcopy m s).2.panicked = s.panicked ∧
    (TrackedM.Copy mcopy m s).1.Metric = mcopy m.Metric ∧
    TrackedM.TrackingID (TrackedM.Copy mcopy m s).1 = TrackedM.TrackingID m ∧
    (TrackedM.Reject false
       (TrackedM.Accept false
         (TrackedM.Copy mcopy (newTrackingMetric id mv).1
           (newTrackingMetric id mv).2).2)).notifications
      = [{ id := id, accepted := 1, rejected := 1 }] ∧
    ({ id := id, accepted := 1, rejected := 1 } : DeliveryInfo).Delivered = false := by
  exact ⟨rfl, rfl, rfl, rfl, rfl, rfl, rfl, rfl, rfl, rfl, rfl⟩

/-- C3 counterexample: a single tracked metric accepted with a notify
callback that panics: the callback is invoked once and the panic
propagates, but the registry entry for the tracking id is not removed
(`store` is still true after completion), contradicting the claim that
the entry is still removed when the callback panics. -/
theorem callback_panic_keeps_entry_cex :
    (TrackedM.Accept true (newTrackingMetric 1 (0 : Nat)).2).store = true ∧
    (TrackedM.Accept true (newTrackingMetric 1 (0 : Nat)).2).notifications
      = [{ id := 1, accepted := 1, rejected := 0 }] ∧
    (TrackedM.Accept true (newTrackingMetric 1 (0 : Nat)).2).panicked = true := by
  exact ⟨rfl, rfl, rfl⟩

/-- C3 amended: when the zero-crossing decrement fires a notify
callback that itself panics, the subsystem neither retries nor
suppresses the failure (the callback is invoked exactly once and the
panic propagates), but the tracking-registry entry is NOT removed: the
removal after the callback is skipped by the unwinding, and the entry
is removed only when the callback returns normally. -/
theorem callback_panic_amended (s : TSState) (h1 : s.d.Rc = 1) :
    (TrackedM.decr true s).notifications = s.notifications ++
      [{ id := s.d.Id, accepted := s.d.AcceptCount, rejected := s.d.RejectCount }] ∧
    (TrackedM.decr true s).panicked = true ∧
    (TrackedM.decr true s).store = s.store ∧
    (TrackedM.decr false s).store = false := by
  simp [TrackedM.decr, TrackingData.decr, TrackingData.notifyInfo, h1]

/-- C3 amended witness: the concrete single-metric state of refcount 1:
the panicking callback leaves the registry entry in place, the normal
callback removes it. -/
theorem callback_panic_amended_witness :
    ((newTrackingMetric 2 (0 : Nat)).2.d.Rc = 1) ∧
    (TrackedM.decr true (newTrackingMetric 2 (0 : Nat)).2).store = true ∧
    (TrackedM.decr false (newTrackingMetric 2 (0 : Nat)).2).store = false := by
  have h := callback_panic_amended (newTrackingMetric 2 (0 : Nat)).2 rfl
  exact ⟨rfl, by rw [h.2.2.1]; rfl, h.2.2.2⟩

/-- C7 counterexample: an empty tracked group completes at creation
(the notify callback has fired, the delivery is done), yet the registry
entry for its tracking id is still present: the empty-group notify in
`newTrackingMetricGroup` does not remove the entry, contradicting the
claim that a completed record's entry can never be observed and that
every completion removes the entry. -/
theorem registry_lifecycle_cex :
    (newTrackingMetricGroup 1 ([] : List Nat)).2.notifications
      = [{ id := 1, accepted := 0, rejected := 0 }] ∧
    (newTrackingMetricGroup 1 ([] : List Nat)).2.store = true := by
  exact ⟨rfl, rfl⟩

/-- C7 amended: for a non-empty tracked group resolved through the
normal path (callback returning normally), the registry entry is
present while any reference is live — after any proper prefix of the
resolve calls the entry is still there and no notification has fired —
and the completing resolve fires the notification exactly once and
removes the entry; only the empty-group completion at creation (and a
panicking callback) leave the entry behind. -/
theorem registry_lifecycle_amended (M : Type) (id : Nat) (group : List M)
    (p q : List Resolution) (hlen : (p ++ q).length = group.length)
    (hq : q ≠ []) :
    (runResolutions p (newTrackingMetricGroup id group).2).store = true ∧
    (runResolutions p (newTrackingMetricGroup id group).2).notifications = [] ∧
    (runResolutions p (newTrackingMetricGroup id group).2).d.Rc = (q.length : Int) ∧
    (runResolutions (p ++ q) (newTrackingMetricGroup id group).2).store = false ∧
    (runResolutions (p ++ q) (newTrackingMetricGroup id group).2).notifications
      = [{ id := id, accepted := (countAccepts (p ++ q) : Int),
           rejected := (countRejects (p ++ q) : Int) }] := by
  have hql : 1 ≤ q.length := by
    cases q with
    | nil => exact absurd rfl hq
    | cons a l => simp
  have hg : group ≠ [] := by
    intro hgnil
    subst hgnil
    simp at hlen
    exact hq hlen.2
  have hsnd := newTrackingMetricGroup_snd id group hg
  have hlen2 : (group.length : Int) = (p.length : Int) + (q.length : Int) := by
    rw [← hlen]
    simp [List.length_append]
  obtain ⟨p1, p2, p3, p4, p5, p6, p7⟩ :=
    runResolutions_partial p (newTrackingMetricGroup id group).2
      (by rw [hsnd]; show (p.length : Int) < (group.length : Int); omega)
      (by rw [hsnd])
  obtain ⟨c1, c2, c3, c4⟩ := group_run id group (p ++ q) hlen
  have hg0 : ¬ group.length = 0 := by simpa using hg
  refine ⟨?_, ?_, ?_, by rw [c4]; simp [hg0], c1⟩
  · rw [p6, hsnd]; rfl
  · rw [p5, hsnd]
  · rw [p2, hsnd]
    show (group.length : Int) - (p.length : Int) = (q.length : Int)
    omega

/-- C7 amended witness: a group of two metrics, one accept resolved:
entry present and no notification; after the final reject: entry
removed and exactly one notification. -/
theorem registry_lifecycle_amended_witness :
    (([Resolution.accept] ++ [Resolution.reject]).length
        = ([10, 20] : List Nat).length) ∧
    ([Resolution.reject] ≠ ([] : List Resolution)) ∧
    (runResolutions [Resolution.accept]
        (newTrackingMetricGroup 9 ([10, 20] : List Nat)).2).store = true ∧
    (runResolutions ([Resolution.accept] ++ [Resolution.reject])
        (newTrackingMetricGroup 9 ([10, 20] : List Nat)).2).store = false := by
  have h := registry_lifecycle_amended Nat 9 ([10, 20] : List Nat)
    [Resolution.accept] [Resolution.reject] rfl (by simp)
  exact ⟨rfl, by simp, h.1, h.2.2.2.1⟩

lemma lastIDAfter_eq : ∀ k, k < 2 ^ 64 → lastIDAfter k = k := by
  intro k
  induction k with
  | zero => intro _; rfl
  | succ n ih =>
    intro h
    have hn : n < 2 ^ 64 := by omega
    show (newTrackingID (lastIDAfter n)).1 = n + 1
    rw [ih hn]
    exact Nat.mod_eq_of_lt h

lemma issuedID_eq (j : Nat) (h0 : 0 < j) (h : j < 2 ^ 64) : issuedID j = j := by
  obtain ⟨n, rfl⟩ : ∃ n, j = n + 1 := ⟨j - 1, by omega⟩
  simp only [issuedID, newTrackingID, Nat.add_sub_cancel]
  rw [lastIDAfter_eq n (by omega)]
  exact Nat.mod_eq_of_lt h

/-- C8: the allocator issues ids by a wrapping increment of the global
counter starting from 0: before the 64-bit wrap the first issued id is
1, the k-th issued id is k (so ids are strictly increasing, never
reused, 0 is never issued, and each call returns the previous id plus
one). -/
theorem tracking_id_allocator (k : Nat) (h0 : 0 < k) (hk : k < 2 ^ 64) :
    issuedID 1 = 1 ∧
    issuedID k = k ∧
    issuedID k ≠ 0 ∧
    (∀ j, 0 < j → j < k → issuedID j < issuedID k ∧ issuedID j ≠ issuedID k) ∧
    (k + 1 < 2 ^ 64 → issuedID (k + 1) = issuedID k + 1) := by
  have hk1 : issuedID k = k := issuedID_eq k h0 hk
  refine ⟨issuedID_eq 1 (by omega) (by norm_num), hk1, by omega, ?_, ?_⟩
  · intro j hj0 hjk
    rw [hk1, issuedID_eq j hj0 (by omega)]
    omega
  · intro hk2
    rw [hk1, issuedID_eq (k + 1) (by omega) hk2]

/-- C8 witness: the fifth id issued is 5, the first is 1, and the sixth
is the fifth plus one. -/
theorem tracking_id_allocator_witness :
    0 < 5 ∧ 5 < 2 ^ 64 ∧ issuedID 5 = 5 ∧ issuedID 1 = 1 ∧ issuedID 6 = issuedID 5 + 1 := by
  have h := tracking_id_allocator 5 (by norm_num) (by norm_num)
  exact ⟨by norm_num, by norm_num, h.2.1, h.1, h.2.2.2.2 (by norm_num)⟩

/-- C9: `WithGroupTracking` returns the input sequence itself with every
element replaced by its tracked wrapper (same elements, same order; the
underlying metric values are exactly the input ones), every returned
tracked metric's tracking id equals the group tracking id returned
alongside, and the shared record's refcount equals the length of the
sequence on return. -/
theorem with_group_tracking_wraps_in_place (M : Type) (id : Nat)
    (group : List M) :
    (WithGroupTracking id group).1
      = group.map (fun m => { Metric := m, dId := id }) ∧
    (WithGroupTracking id group).1.map TrackedM.Unwrap = group ∧
    (∀ w, w ∈ (WithGroupTracking id group).1
      → TrackedM.TrackingID w = (WithGroupTracking id group).2.d.Id) ∧
    (WithGroupTracking id group).2.d.Id = id ∧
    (WithGroupTracking id group).2.d.Rc = (group.length : Int) := by
  have hid : (WithGroupTracking id group).2.d.Id = id := by
    by_cases hg : group = []
    · subst hg; rfl
    · show (newTrackingMetricGroup id group).2.d.Id = id
      rw [newTrackingMetricGroup_snd id group hg]
  have h1 : (WithGroupTracking id group).1
      = group.map (fun m => ({ Metric := m, dId := id } : TrackedM M)) :=
    newTrackingMetricGroup_fst id group
  refine ⟨h1, ?_, ?_, hid, ?_⟩
  · rw [h1, List.map_map]
    exact List.map_id group
  · intro w hw
    rw [h1] at hw
    obtain ⟨m, _, rfl⟩ := List.mem_map.mp hw
    rw [hid]
    rfl
  · by_cases hg : group = []
    · subst hg; rfl
    · show (newTrackingMetricGroup id group).2.d.Rc = (group.length : Int)
      rw [newTrackingMetricGroup_snd id group hg]

/-- C10: the at-most-once guarantee is not enforced against use after
completion: accept a single tracked metric (notify fires with
accepted 1), then copy the stale instance and accept the copy — the
notify callback for the same tracking id fires a second time with
accepted 2 and the negative-refcount check is never triggered. -/
theorem stale_copy_double_notify :
    (TrackedM.Accept false
       (TrackedM.Copy (fun x => x) (newTrackingMetric 1 (0 : Nat)).1
         (TrackedM.Accept false (newTrackingMetric 1 (0 : Nat)).2)).2).notifications
      = [{ id := 1, accepted := 1, rejected := 0 },
         { id := 1, accepted := 2, rejected := 0 }] ∧
    (TrackedM.Accept false
       (TrackedM.Copy (fun x => x) (newTrackingMetric 1 (0 : Nat)).1
         (TrackedM.Accept false (newTrackingMetric 1 (0 : Nat)).2)).2).panicked
      = false := by
  exact ⟨rfl, rfl⟩
